import Mathlib

/-!
Verification development for the GCPCVS client (files `GCPCVS.py` and
`gcpcvs/gcpcvs.py`).  The definitions below are a shallow embedding of the
long-running-operation layer of the client: the retrying request executor
(`_do_api_post` / `_do_api_delete` and the inline retry loop of
`GCPCVS.createVolume`), the completion-polling loops (`createBackup`'s
wait and `breakVolumeReplicationByID`'s wait), the backup-rotation
algorithm (`rotateBackup`) and the service-level translation tables.
HTTP exchanges are modelled by scripted response lists; wall-clock time by
natural-number seconds; Python exceptions by explicit result constructors.
-/

/-! ## Service level translation (both files, identical tables)

Source: `translateServiceLevelAPI2UI` / `translateServiceLevelUI2API`.
Python looks the argument up in a four-entry dict and returns `None`
(here `none`) for keys outside the table. -/

def translateServiceLevelAPI2UI (serviceLevel : String) : Option String :=
  if serviceLevel = "basic" then some "standard"
  else if serviceLevel = "standard" then some "premium"
  else if serviceLevel = "extreme" then some "extreme"
  else if serviceLevel = "standard-sw" then some "standard-sw"
  else none

def translateServiceLevelUI2API (serviceLevel : String) : Option String :=
  if serviceLevel = "standard" then some "basic"
  else if serviceLevel = "premium" then some "standard"
  else if serviceLevel = "extreme" then some "extreme"
  else if serviceLevel = "standard-sw" then some "standard-sw"
  else none

/-- Keys of the API-to-UI dict, in source order. -/
def apiServiceLevels : List String := ["basic", "standard", "extreme", "standard-sw"]

/-- Keys of the UI-to-API dict, in source order. -/
def uiServiceLevels : List String := ["standard", "premium", "extreme", "standard-sw"]

/-! ## Retrying request executor

Source: `gcpcvs._do_api_post` (gcpcvs.py 100-146) and `gcpcvs._do_api_delete`
(gcpcvs.py 153-199), plus the inline retry loop of `GCPCVS.createVolume`
(GCPCVS.py 188-206).  One HTTP exchange is one `ApiResponse`: its status
code and the (optional) `message` field of the JSON body.  A call consumes
scripted responses in order; sleep durations (Python draws
`random.randrange(50,70)`) are supplied as a list; wall-clock time is a
natural number of seconds advanced by sleeping. -/

structure ApiResponse where
  status : Nat
  hasMessage : Bool
  message : String
deriving DecidableEq

/-- Result of one executor call.  `raised` is Python's
`requests.raise_for_status` exception (statuses of 400 and above);
`ok` is a normal return; in both, the `Nat` counts HTTP attempts made.
`scriptExhausted` marks a run whose scripted responses ran out while the
loop still wanted another request. -/
inductive ExecResult where
  | ok (resp : ApiResponse) (attempts : Nat)
  | raised (resp : ApiResponse) (attempts : Nat)
  | scriptExhausted (attempts : Nat)
deriving DecidableEq

/-- Model of `r.raise_for_status()` followed by `return r`: raises exactly
for status codes 400-599 (here: 400 and above), otherwise returns. -/
def finishRequest (r : ApiResponse) (attempts : Nat) : ExecResult :=
  if 400 ≤ r.status then ExecResult.raised r attempts else ExecResult.ok r attempts

/-- Model of Python's `"pat" in s` substring test. -/
def containsSubstr (s pat : String) : Bool :=
  (List.range (s.data.length + 1)).any (fun i => pat.data.isPrefixOf (s.data.drop i))

/-- Model of `reason['message'] if 'message' in reason else "error"`
(gcpcvs.py 126-129 and 179-182). -/
def messageField (r : ApiResponse) : String :=
  if r.hasMessage then r.message else "error"

/-- Body of the `while True` loop of `_do_api_post` (gcpcvs.py 104-144):
arguments are the configured timeout, the precomputed
`target_time = now + timeout_seconds`, the current clock, the remaining
scripted responses, the remaining sleep durations and the attempts made
so far.  Ends with `finishRequest` (= `r.raise_for_status(); return r`). -/
def apiPostLoop (timeoutSeconds targetTime : Nat) :
    Nat → List ApiResponse → List Nat → Nat → ExecResult
  | _, [], _, attempts => ExecResult.scriptExhausted attempts
  | now, r :: script, sleeps, attempts =>
    if timeoutSeconds = 0 then finishRequest r (attempts + 1)
    else if r.status = 200 ∨ r.status = 202 then finishRequest r (attempts + 1)
    else if r.status = 429 ∨ r.status = 409 ∨ r.status = 500 then
      if r.status = 500 ∧
          containsSubstr (messageField r) "Cannot spawn additional jobs" = false then
        finishRequest r (attempts + 1)
      else
        if targetTime ≤ now + sleeps.headD 60 then finishRequest r (attempts + 1)
        else apiPostLoop timeoutSeconds targetTime (now + sleeps.headD 60) script
          sleeps.tail (attempts + 1)
    else finishRequest r (attempts + 1)

/-- Source: `gcpcvs._do_api_post(url, payload, timeout_seconds=600)`.
`t0` is the clock at entry, so `target_time = t0 + timeoutSeconds`. -/
def do_api_post (timeoutSeconds t0 : Nat) (script : List ApiResponse)
    (sleeps : List Nat) : ExecResult :=
  apiPostLoop timeoutSeconds (t0 + timeoutSeconds) t0 script sleeps 0

/-- Body of the `while True` loop of `_do_api_delete` (gcpcvs.py 157-197);
the source duplicates `_do_api_post` verbatim apart from the HTTP verb,
and so does this definition. -/
def apiDeleteLoop (timeoutSeconds targetTime : Nat) :
    Nat → List ApiResponse → List Nat → Nat → ExecResult
  | _, [], _, attempts => ExecResult.scriptExhausted attempts
  | now, r :: script, sleeps, attempts =>
    if timeoutSeconds = 0 then finishRequest r (attempts + 1)
    else if r.status = 200 ∨ r.status = 202 then finishRequest r (attempts + 1)
    else if r.status = 429 ∨ r.status = 409 ∨ r.status = 500 then
      if r.status = 500 ∧
          containsSubstr (messageField r) "Cannot spawn additional jobs" = false then
        finishRequest r (attempts + 1)
      else
        if targetTime ≤ now + sleeps.headD 60 then finishRequest r (attempts + 1)
        else apiDeleteLoop timeoutSeconds targetTime (now + sleeps.headD 60) script
          sleeps.tail (attempts + 1)
    else finishRequest r (attempts + 1)

/-- Source: `gcpcvs._do_api_delete(url, timeout_seconds=120)`. -/
def do_api_delete (timeoutSeconds t0 : Nat) (script : List ApiResponse)
    (sleeps : List Nat) : ExecResult :=
  apiDeleteLoop timeoutSeconds (t0 + timeoutSeconds) t0 script sleeps 0

/-- Retry loop of `GCPCVS.createVolume` (GCPCVS.py 188-206): a fixed retry
counter (`retries = timeout`) instead of a deadline, and a
`startswith` test of the job-queue-full phrase.  When the counter reaches
zero after a decrement, the `while` guard fails and
`raise_for_status` runs on the last 500 response.  Called with an initial
counter of zero the Python loop body never runs and `r` is unbound; that
entry is modelled as `scriptExhausted`. -/
def createVolumeRetryLoop : Nat → List ApiResponse → Nat → ExecResult
  | 0, _, attempts => ExecResult.scriptExhausted attempts
  | _ + 1, [], attempts => ExecResult.scriptExhausted attempts
  | retries + 1, r :: script, attempts =>
    if r.status = 500 then
      if r.hasMessage then
        if "Error creating volume - Cannot spawn additional jobs".data.isPrefixOf
            r.message.data then
          if retries = 0 then finishRequest r (attempts + 1)
          else createVolumeRetryLoop retries script (attempts + 1)
        else finishRequest r (attempts + 1)
      else finishRequest r (attempts + 1)
    else finishRequest r (attempts + 1)

/-! ## Completion-polling loops

Two pollers are modelled.  `createBackup`'s wait (gcpcvs.py 863-871,
identical in GCPCVS.py 416-423) reads the backup's `lifeCycleState` every
5 seconds and breaks only on `"available"`; it has no other terminal
condition.  `breakVolumeReplicationByID`'s wait (gcpcvs.py 721-733) reads
the relationship's `lifeCycleState` every 15 seconds, breaks on
`"available"`, raises `RuntimeError(lifeCycleStateDetails)` on `"error"`
and raises `TimeoutError` once more than 5*60 seconds have passed.
Each poll consumes one scripted state. -/

/-- Wait loop of `createBackup`.  `some n` models `return True` after `n`
polls; `none` means the scripted states ran out with the loop still
polling (the Python loop would issue another GET). -/
def createBackupWaitLoop : List String → Nat → Option Nat
  | [], _ => none
  | st :: rest, polls =>
    if st = "available" then some (polls + 1)
    else createBackupWaitLoop rest (polls + 1)

/-- Outcome of the replication-break wait. -/
inductive BreakWaitResult where
  | success (polls : Nat)
  | runtimeError (details : String) (polls : Nat)
  | timedOut (polls : Nat)
  | stillPolling
deriving DecidableEq

/-- Wait loop of `breakVolumeReplicationByID`: each scripted poll carries
the reported `lifeCycleState` and `lifeCycleStateDetails`.  The clock is
modelled as 15 seconds per iteration (the `sleep(15)` of the source;
network latency is not modelled), so the `time() > start + 5*60` test
reads `300 < 15 * polls`. -/
def breakReplicationWaitLoop : List (String × String) → Nat → BreakWaitResult
  | [], _ => BreakWaitResult.stillPolling
  | (st, det) :: rest, polls =>
    if st = "available" then BreakWaitResult.success (polls + 1)
    else if st = "error" then BreakWaitResult.runtimeError det (polls + 1)
    else if 300 < 15 * (polls + 1) then BreakWaitResult.timedOut (polls + 1)
    else breakReplicationWaitLoop rest (polls + 1)

/-! ## Backup rotation

Source: `rotateBackup` (GCPCVS.py 431-475 and gcpcvs.py 878-922; the two
bodies are textually identical).  The remote interactions are modelled by
a `RotInput` record carrying what each call would return: the first
backup listing (quota check), the volume lookup, whether `createBackup`
returned `True`, and the post-creation backup listing.  The trace of
outgoing calls is collected as a list of `RotEvent`s. -/

structure Backup where
  name : String
  backupId : String
  created : String
deriving DecidableEq

structure Volume where
  name : String
deriving DecidableEq

/-- Input of one `rotateBackup` run: `volumeID` and `count` are the call
arguments; `listing1` is what `getBackupsByVolumeID` returns before
creation, `volumes` what `getVolumesByVolumeID` returns, `createOk` the
boolean result of `createBackup`, `nowIso` the value of
`datetime.now().isoformat(timespec=minutes)`, and `listing2` the backup
listing after creation. -/
structure RotInput where
  volumeID : String
  count : Int
  listing1 : List Backup
  volumes : List Volume
  createOk : Bool
  nowIso : String
  listing2 : List Backup
deriving DecidableEq

/-- Outgoing calls made by `rotateBackup`, in order. -/
inductive RotEvent where
  | listBackupsCall
  | getVolumeCall
  | createBackupCall (name : String)
  | deleteCall (backupId : String)
deriving DecidableEq

/-- How a `rotateBackup` run ends.  `retFalse` / `retTrue` model the bare
boolean returns of the source; `attributeError` models Python raising
`AttributeError` when a method name is looked up that the class does not
define; `valueError` models `datetime.fromisoformat` failing inside the
sort key; `indexError` models `vols[0]` on an empty lookup result. -/
inductive RotOutcome where
  | retFalse
  | retTrue
  | attributeError (attrName : String)
  | valueError
  | indexError
deriving DecidableEq

/-! ### Timestamp parsing

The sort key of the pruning phase is
`datetime.fromisoformat(b['created'].strip("Z"))`.  `str.strip("Z")`
removes `Z` characters from both ends; `fromisoformat` is modelled on the
ISO-8601 shapes the CVS service emits (`YYYY-MM-DD`, optionally followed
by `THH:MM` or `THH:MM:SS`), encoded into one natural number whose
numeric order agrees with the chronological order of the parsed
datetimes.  A shape outside these forms parses to `none`, modelling the
`ValueError` that `fromisoformat` raises. -/

def stripZ (s : String) : String :=
  String.mk (((s.data.dropWhile (· = 'Z')).reverse.dropWhile (· = 'Z')).reverse)

/-- Splits a character list at every occurrence of `sep`, keeping empty
groups, like Python's `str.split(sep)` with a one-character separator. -/
def splitOnChar (sep : Char) : List Char → List (List Char)
  | [] => [[]]
  | c :: cs =>
    if c = sep then [] :: splitOnChar sep cs
    else
      match splitOnChar sep cs with
      | [] => [[c]]
      | g :: gs => (c :: g) :: gs

def digitsToNat (cs : List Char) : Option Nat :=
  if cs ≠ [] ∧ cs.all Char.isDigit then
    some (cs.foldl (fun acc c => acc * 10 + (c.toNat - 48)) 0)
  else none

def parseIsoDate (cs : List Char) : Option Nat :=
  match splitOnChar '-' cs with
  | [y, m, d] =>
    if y.length = 4 ∧ m.length = 2 ∧ d.length = 2 then
      match digitsToNat y, digitsToNat m, digitsToNat d with
      | some yn, some mn, some dn => some ((yn * 100 + mn) * 100 + dn)
      | _, _, _ => none
    else none
  | _ => none

def parseIsoTime (cs : List Char) : Option Nat :=
  match splitOnChar ':' cs with
  | [h, mi] =>
    if h.length = 2 ∧ mi.length = 2 then
      match digitsToNat h, digitsToNat mi with
      | some hn, some mn => some ((hn * 100 + mn) * 100)
      | _, _ => none
    else none
  | [h, mi, se] =>
    if h.length = 2 ∧ mi.length = 2 ∧ se.length = 2 then
      match digitsToNat h, digitsToNat mi, digitsToNat se with
      | some hn, some mn, some sn => some ((hn * 100 + mn) * 100 + sn)
      | _, _, _ => none
    else none
  | _ => none

def parseIsoDateTime (s : String) : Option Nat :=
  match splitOnChar 'T' s.data with
  | [d] => (parseIsoDate d).map (fun dk => dk * 1000000)
  | [d, t] =>
    match parseIsoDate d, parseIsoTime t with
    | some dk, some tk => some (dk * 1000000 + tk)
    | _, _ => none
  | _ => none

/-- Sort key of one backup: `datetime.fromisoformat(created.strip("Z"))`. -/
def backupSortKey (b : Backup) : Option Nat :=
  parseIsoDateTime (stripZ b.created)

/-! ### Name filter

The pruning filter is
`p = re.compile(f"ϑ-......-\d\d\d\d-\d\d-\d\dT\d\d:\d\d")` (with `ϑ` the
volume name) applied with `p.match(name)`.  For volume names free of
regex metacharacters — the only kind exercised here — the pattern is
positional: the volume name literally, `-`, six arbitrary non-newline
characters, `-`, then `dddd-dd-ddTdd:dd`.  `re.match` anchors at the
start only, so arbitrary trailing characters are accepted. -/

def matchLit (ch : Char) : List Char → Option (List Char)
  | c :: cs => if c = ch then some cs else none
  | [] => none

def matchDigits : Nat → List Char → Option (List Char)
  | 0, cs => some cs
  | n + 1, c :: cs => if c.isDigit then matchDigits n cs else none
  | _ + 1, [] => none

def matchAnyChars : Nat → List Char → Option (List Char)
  | 0, cs => some cs
  | n + 1, c :: cs => if c ≠ '\n' then matchAnyChars n cs else none
  | _ + 1, [] => none

/-- Timestamp tail of the regex: `\d\d\d\d-\d\d-\d\dT\d\d:\d\d`. -/
def matchStampDigits (cs : List Char) : Option (List Char) :=
  matchDigits 4 cs >>= matchLit '-' >>= matchDigits 2 >>= matchLit '-' >>=
    matchDigits 2 >>= matchLit 'T' >>= matchDigits 2 >>= matchLit ':' >>=
    matchDigits 2

/-- Model of `p.match(name)` for the rotation pattern of `volumename`. -/
def matchesRotationPattern (volumename name : String) : Bool :=
  match
    (if volumename.data.isPrefixOf name.data then
      some (name.data.drop volumename.data.length)
    else none) >>= matchLit '-' >>= matchAnyChars 6 >>= matchLit '-' >>=
      matchStampDigits with
  | some _ => true
  | none => false

/-! ### Stable descending sort

`sorted(backups, key=..., reverse=True)` is a stable sort by key, largest
key first; ties keep listing order.  Keys are computed first (`decorate`),
failing like Python's `sorted` does when a key raises, then the decorated
list is insertion-sorted descending.  An element is inserted before the
first element whose key is not larger, which keeps earlier-listed
elements ahead of equal keys. -/

def decorate : List Backup → Option (List (Nat × Backup))
  | [] => some []
  | b :: bs =>
    match backupSortKey b, decorate bs with
    | some k, some ps => some ((k, b) :: ps)
    | _, _ => none

def insertDescPair (p : Nat × Backup) : List (Nat × Backup) → List (Nat × Backup)
  | [] => [p]
  | q :: qs => if q.1 ≤ p.1 then p :: q :: qs else q :: insertDescPair p qs

def sortDescPairs : List (Nat × Backup) → List (Nat × Backup)
  | [] => []
  | p :: ps => insertDescPair p (sortDescPairs ps)

/-- Model of `sorted(bs, key=λ b. fromisoformat(b.created.strip("Z")), reverse=True)`:
`none` when some key fails to parse (Python raises `ValueError`). -/
def sortBackupsDesc (bs : List Backup) : Option (List Backup) :=
  (decorate bs).map (fun ps => (sortDescPairs ps).map Prod.snd)

/-! ### Attribute lookup

Python resolves `self.deleteBackupbyBackupID` against the class
dictionary at call time; a name the class does not define raises
`AttributeError`.  The two class dictionaries are transcribed from the
`def` statements of each file. -/

/-- Method names defined on class `gcpcvs` (gcpcvs/gcpcvs.py). -/
def gcpcvsClassMethods : List String :=
  ["__init__", "__str__", "getProjectNumber", "getProjectID",
   "_log_response", "_do_api_get", "_API_getAll", "_do_api_post",
   "_do_api_delete", "is_type_cvs", "is_type_cvs_performance",
   "getVersionByRegion", "getPoolsByRegion", "getPoolsByName",
   "getPoolsByPoolID", "createPool", "_modifyPoolByPoolID",
   "resizePoolByPoolID", "deletePoolByPoolID", "getVolumesByRegion",
   "getVolumesByName", "getVolumesByVolumeID", "_modifyVolumeByVolumeID",
   "resizeVolumeByVolumeID", "setServiceLevelByVolumeID", "createVolume",
   "deleteVolumeByVolumeID", "translateServiceLevelAPI2UI",
   "translateServiceLevelUI2API", "getSnapshotsByRegion",
   "deleteSnapshotBySnapshotID", "getVolumeReplicationByRegion",
   "getVolumeReplicationByID", "getVolumeReplicationByName",
   "createVolumeReplication", "breakVolumeReplicationByID",
   "resyncVolumeReplicationByID", "createReverseVolumeReplicationByID",
   "deleteVolumeReplicationByID", "getBackups", "getBackupsByVolumeID",
   "createBackup", "rotateBackup", "deleteBackupByBackupID",
   "deleteBackupByName", "deleteAllBackupsByVolumeID",
   "getKMSConfigurationByRegion", "getKMSConfigurationByID",
   "deleteKMSConfigurationByID", "getActiveDirectoryConfigurationByRegion",
   "getActiveDirectoryConfigurationByID"]

/-- Method names defined on class `GCPCVS` (GCPCVS.py). -/
def theGCPCVSClassMethods : List String :=
  ["__init__", "__str__", "getProjectNumber", "getProjectID",
   "_log_response", "_do_api_get", "getVolumesByRegion",
   "getVolumesByName", "getVolumesByVolumeID", "_modifyVolumeByVolumeID",
   "resizeVolumeByVolumeID", "setServiceLevelByVolumeID", "createVolume",
   "deleteVolumeByVolumeID", "translateServiceLevelAPI2UI",
   "translateServiceLevelUI2API", "getSnapshotsByRegion",
   "deleteSnapshotBySnapshotID", "getVolumeReplicationByRegion",
   "getBackups", "getBackupsByVolumeID", "createBackup", "rotateBackup",
   "deleteBackupByBackupID", "deleteBackupByName",
   "deleteAllBackupsByVolumeID", "getKMSConfigurationByRegion",
   "getKMSConfigurationByID", "deleteKMSConfigurationByID",
   "getActiveDirectoryConfigurationByRegion",
   "getActiveDirectoryConfigurationByID"]

/-- Attribute name the pruning loop of `rotateBackup` calls, exactly as
written at GCPCVS.py 473 and gcpcvs.py 920. -/
def rotateDeleteAttrName : String := "deleteBackupbyBackupID"

/-! ### The rotation itself -/

/-- Pruning loop of `rotateBackup` (`i = count; while i < len(...)`),
already specialised to the tail `sortedbackups[count:]` it walks.  Each
iteration resolves `attr` on the class; if the class defines it the
delete call is issued and the loop continues, otherwise Python raises
`AttributeError` on the spot. -/
def pruneLoop (methods : List String) (attr : String) :
    List Backup → List RotEvent → RotOutcome × List RotEvent
  | [], evs => (RotOutcome.retTrue, evs)
  | b :: rest, evs =>
    if methods.contains attr then
      pruneLoop methods attr rest (evs ++ [RotEvent.deleteCall b.backupId])
    else (RotOutcome.attributeError attr, evs)

/-- Generated backup name of one rotation (GCPCVS.py 455-458, gcpcvs.py
902-905): `volumename`, `-`, `volumehash = volumeID[0:6]`, `-`, the
minute-resolution ISO timestamp of the current time. -/
def rotationBackupName (volumename volumeID nowIso : String) : String :=
  volumename ++ "-" ++ String.mk (volumeID.data.take 6) ++ "-" ++ nowIso

/-- Model of `rotateBackup(region, volumeID, count)`, parameterised by the
class method table and by the attribute name the pruning loop calls
(the two source files differ in neither). -/
def rotateBackupWith (methods : List String) (attr : String) :
    RotInput → RotOutcome × List RotEvent
  | ⟨volumeID, count, listing1, volumes, createOk, nowIso, listing2⟩ =>
    if ¬ (1 ≤ count ∧ count ≤ 30) then (RotOutcome.retFalse, [])
    else if listing1.length = 32 then
      (RotOutcome.retFalse, [RotEvent.listBackupsCall])
    else
      match volumes with
      | [] =>
        (RotOutcome.indexError,
         [RotEvent.listBackupsCall, RotEvent.getVolumeCall])
      | vol :: _ =>
        if createOk = false then
          (RotOutcome.retFalse,
           [RotEvent.listBackupsCall, RotEvent.getVolumeCall,
            RotEvent.createBackupCall (rotationBackupName vol.name volumeID nowIso)])
        else
          match sortBackupsDesc (listing2.filter
              (fun b => matchesRotationPattern vol.name b.name)) with
          | none =>
            (RotOutcome.valueError,
             [RotEvent.listBackupsCall, RotEvent.getVolumeCall,
              RotEvent.createBackupCall (rotationBackupName vol.name volumeID nowIso),
              RotEvent.listBackupsCall])
          | some sortedbackups =>
            pruneLoop methods attr (sortedbackups.drop count.toNat)
              [RotEvent.listBackupsCall, RotEvent.getVolumeCall,
               RotEvent.createBackupCall (rotationBackupName vol.name volumeID nowIso),
               RotEvent.listBackupsCall]

/-- The `rotateBackup` of gcpcvs/gcpcvs.py as written. -/
def rotateBackup (inp : RotInput) : RotOutcome × List RotEvent :=
  rotateBackupWith gcpcvsClassMethods rotateDeleteAttrName inp

/-- The `rotateBackup` of GCPCVS.py as written (same body, other class). -/
def rotateBackupGCPCVS (inp : RotInput) : RotOutcome × List RotEvent :=
  rotateBackupWith theGCPCVSClassMethods rotateDeleteAttrName inp

/-- The rotation with the delete call dispatched to the method the class
actually defines, `deleteBackupByBackupID`; the variant the claims'
intended pruning behaviour is compared against. -/
def rotateBackupIntendedDispatch (inp : RotInput) : RotOutcome × List RotEvent :=
  rotateBackupWith gcpcvsClassMethods "deleteBackupByBackupID" inp

/-- The backups the pruning loop walks (what `sortedbackups[count:]`
evaluates to), extracted from the same computation as `rotateBackupWith`. -/
def pruneCandidates : RotInput → List Backup
  | ⟨_, count, _, volumes, _, _, listing2⟩ =>
    match volumes with
    | [] => []
    | vol :: _ =>
      match sortBackupsDesc (listing2.filter
          (fun b => matchesRotationPattern vol.name b.name)) with
      | none => []
      | some sortedbackups => sortedbackups.drop count.toNat

/-- Tests whether an event is an outgoing delete call. -/
def isDeleteEvent : RotEvent → Bool
  | RotEvent.deleteCall _ => true
  | _ => false

/-- Scans a trace and checks that no delete call occurs before the first
backup-creation call. -/
def noDeleteBeforeCreate : List RotEvent → Bool
  | [] => true
  | RotEvent.listBackupsCall :: rest => noDeleteBeforeCreate rest
  | RotEvent.getVolumeCall :: rest => noDeleteBeforeCreate rest
  | RotEvent.createBackupCall _ :: _ => true
  | RotEvent.deleteCall _ :: _ => false

/-- Shape check for a minute-resolution ISO timestamp `YYYY-MM-DDTHH:MM`
with nothing following, the exact shape `rotateBackup` embeds in the
names it generates. -/
def isMinuteIsoStamp (s : String) : Bool :=
  match matchStampDigits s.data with
  | some [] => true
  | _ => false

/-- Stated from the claim's words, for comparison with the filter the
source actually applies: a name the rotation itself would generate for
this volume, `volumeName ++ "-" ++ (first 6 chars of volumeId) ++ "-" ++
minute-resolution ISO timestamp` and nothing more. -/
def claimedGeneratedName (volumename volumehash name : String) : Bool :=
  (volumename ++ "-" ++ volumehash ++ "-").data.isPrefixOf name.data &&
    isMinuteIsoStamp
      (String.mk (name.data.drop (volumename ++ "-" ++ volumehash ++ "-").data.length))

/-! ## Helper lemmas on the sorting and pruning machinery -/

theorem mem_insertDescPair {p q : Nat × Backup} {l : List (Nat × Backup)} :
    q ∈ insertDescPair p l ↔ q = p ∨ q ∈ l := by
  induction l with
  | nil => simp [insertDescPair]
  | cons a as ih =>
    by_cases h : a.1 ≤ p.1
    · simp [insertDescPair, h]
    · simp only [insertDescPair, if_neg h, List.mem_cons, ih]
      tauto

theorem mem_sortDescPairs {q : Nat × Backup} {l : List (Nat × Backup)} :
    q ∈ sortDescPairs l ↔ q ∈ l := by
  induction l with
  | nil => simp [sortDescPairs]
  | cons p ps ih => simp [sortDescPairs, mem_insertDescPair, ih]

theorem pairwise_insertDescPair {p : Nat × Backup} {l : List (Nat × Backup)}
    (h : l.Pairwise (fun x y => y.1 ≤ x.1)) :
    (insertDescPair p l).Pairwise (fun x y => y.1 ≤ x.1) := by
  induction l with
  | nil => simp [insertDescPair]
  | cons a as ih =>
    rcases List.pairwise_cons.mp h with ⟨ha, has⟩
    by_cases hle : a.1 ≤ p.1
    · simp only [insertDescPair, if_pos hle]
      refine List.pairwise_cons.mpr ⟨?_, h⟩
      intro q hq
      rcases List.mem_cons.mp hq with rfl | hq'
      · exact hle
      · exact le_trans (ha q hq') hle
    · simp only [insertDescPair, if_neg hle]
      refine List.pairwise_cons.mpr ⟨?_, ih has⟩
      intro q hq
      rcases mem_insertDescPair.mp hq with rfl | hq'
      · omega
      · exact ha q hq'

theorem pairwise_sortDescPairs (l : List (Nat × Backup)) :
    (sortDescPairs l).Pairwise (fun x y => y.1 ≤ x.1) := by
  induction l with
  | nil => simp [sortDescPairs]
  | cons p ps ih => exact pairwise_insertDescPair ih

/-- Every decorated pair came from the input list and carries that
backup's parsed sort key. -/
theorem decorate_mem {bs : List Backup} {ps : List (Nat × Backup)}
    (h : decorate bs = some ps) :
    ∀ p ∈ ps, p.2 ∈ bs ∧ backupSortKey p.2 = some p.1 := by
  induction bs generalizing ps with
  | nil =>
    simp only [decorate, Option.some.injEq] at h
    subst h; simp
  | cons b bs ih =>
    simp only [decorate] at h
    cases hk : backupSortKey b with
    | none => rw [hk] at h; simp at h
    | some k =>
      rw [hk] at h
      cases hd : decorate bs with
      | none => rw [hd] at h; simp at h
      | some qs =>
        rw [hd] at h
        simp only [Option.some.injEq] at h
        subst h
        intro p hp
        rcases List.mem_cons.mp hp with rfl | hp'
        · exact ⟨List.mem_cons_self _ _, hk⟩
        · rcases ih hd p hp' with ⟨h1, h2⟩
          exact ⟨List.mem_cons_of_mem _ h1, h2⟩

/-- Sorting permutes: members of the sorted list were in the input. -/
theorem sortBackupsDesc_mem {bs s : List Backup}
    (h : sortBackupsDesc bs = some s) : ∀ b ∈ s, b ∈ bs := by
  intro b hb
  unfold sortBackupsDesc at h
  cases hd : decorate bs with
  | none => rw [hd] at h; simp at h
  | some ps =>
    rw [hd] at h
    simp only [Option.map_some', Option.some.injEq] at h
    subst h
    rcases List.mem_map.mp hb with ⟨p, hp, rfl⟩
    exact (decorate_mem hd p (mem_sortDescPairs.mp hp)).1

/-- The sorted list is ordered by nonincreasing parsed creation key. -/
theorem sortBackupsDesc_pairwise {bs s : List Backup}
    (h : sortBackupsDesc bs = some s) :
    s.Pairwise (fun x y =>
      (backupSortKey y).getD 0 ≤ (backupSortKey x).getD 0) := by
  unfold sortBackupsDesc at h
  cases hd : decorate bs with
  | none => rw [hd] at h; simp at h
  | some ps =>
    rw [hd] at h
    simp only [Option.map_some', Option.some.injEq] at h
    subst h
    refine List.pairwise_map.mpr ?_
    refine (pairwise_sortDescPairs ps).imp_of_mem ?_
    intro p q hp hq hle
    rw [(decorate_mem hd p (mem_sortDescPairs.mp hp)).2,
        (decorate_mem hd q (mem_sortDescPairs.mp hq)).2]
    simpa using hle

/-- A pruning loop whose delete attribute the class does not define stops
at the first excess backup with `AttributeError` and adds no event. -/
theorem pruneLoop_missing {methods : List String} {attr : String}
    (h : methods.contains attr = false) (b : Backup) (rest : List Backup)
    (evs : List RotEvent) :
    pruneLoop methods attr (b :: rest) evs =
      (RotOutcome.attributeError attr, evs) := by
  simp only [pruneLoop]
  rw [h]
  simp

/-- A pruning loop whose delete attribute exists deletes every excess
backup, in list order, and returns `True`. -/
theorem pruneLoop_defined {methods : List String} {attr : String}
    (h : methods.contains attr = true) :
    ∀ (l : List Backup) (evs : List RotEvent),
      pruneLoop methods attr l evs =
        (RotOutcome.retTrue,
         evs ++ l.map (fun b => RotEvent.deleteCall b.backupId)) := by
  intro l
  induction l with
  | nil => intro evs; simp [pruneLoop]
  | cons b rest ih =>
    intro evs
    simp only [pruneLoop]
    rw [h]
    simp [ih]

/-- Unfolding of `rotateBackupWith` on a run that passes validation, the
quota check, the volume lookup, backup creation and the sort. -/
theorem rotateBackupWith_prune_eq (methods : List String) (attr : String)
    (vid : String) (cnt : Int) (l1 : List Backup) (vol : Volume)
    (vs : List Volume) (now : String) (l2 : List Backup)
    (sorted : List Backup)
    (h1 : 1 ≤ cnt) (h2 : cnt ≤ 30) (h3 : l1.length ≠ 32)
    (h6 : sortBackupsDesc (l2.filter
      (fun b => matchesRotationPattern vol.name b.name)) = some sorted) :
    rotateBackupWith methods attr ⟨vid, cnt, l1, vol :: vs, true, now, l2⟩ =
      pruneLoop methods attr (sorted.drop cnt.toNat)
        [RotEvent.listBackupsCall, RotEvent.getVolumeCall,
         RotEvent.createBackupCall (rotationBackupName vol.name vid now),
         RotEvent.listBackupsCall] := by
  simp only [rotateBackupWith]
  rw [if_neg (not_not_intro ⟨h1, h2⟩), if_neg h3]
  simp only [h6]
  simp

/-- Unfolding of `pruneCandidates` on the same kind of run. -/
theorem pruneCandidates_eq (vid : String) (cnt : Int) (l1 : List Backup)
    (vol : Volume) (vs : List Volume) (cok : Bool) (now : String)
    (l2 : List Backup) (sorted : List Backup)
    (h6 : sortBackupsDesc (l2.filter
      (fun b => matchesRotationPattern vol.name b.name)) = some sorted) :
    pruneCandidates ⟨vid, cnt, l1, vol :: vs, cok, now, l2⟩ =
      sorted.drop cnt.toNat := by
  simp only [pruneCandidates, h6]

/-- Delete traces pass the delete filter unchanged. -/
theorem filter_isDelete_deleteCalls (l : List Backup) :
    (l.map (fun b => RotEvent.deleteCall b.backupId)).filter isDeleteEvent =
      l.map (fun b => RotEvent.deleteCall b.backupId) := by
  induction l with
  | nil => rfl
  | cons b rest ih => simp [isDeleteEvent, ih]

/-- Whatever the delete attribute resolves to, the pruning loop only ever
appends delete calls to the trace it is given. -/
theorem pruneLoop_events {methods : List String} {attr : String} :
    ∀ (l : List Backup) (evs : List RotEvent),
      ∃ tail, (pruneLoop methods attr l evs).2 = evs ++ tail ∧
        ∀ e ∈ tail, isDeleteEvent e = true := by
  intro l
  induction l with
  | nil =>
    intro evs
    exact ⟨[], by simp [pruneLoop], by simp⟩
  | cons b rest ih =>
    intro evs
    cases h : methods.contains attr with
    | false =>
      refine ⟨[], ?_, by simp⟩
      rw [pruneLoop_missing h]
      simp
    | true =>
      obtain ⟨tail, ht, hd⟩ := ih (evs ++ [RotEvent.deleteCall b.backupId])
      refine ⟨RotEvent.deleteCall b.backupId :: tail, ?_, ?_⟩
      · have hstep : pruneLoop methods attr (b :: rest) evs =
            pruneLoop methods attr rest (evs ++ [RotEvent.deleteCall b.backupId]) := by
          simp only [pruneLoop]
          rw [h]
          simp
        rw [hstep, ht]
        simp
      · intro e he
        rcases List.mem_cons.mp he with rfl | he'
        · rfl
        · exact hd e he'

/-! ## Concrete fixtures -/

def c1Input : RotInput :=
  ⟨"abcdefgh", 1, [], [⟨"v"⟩], true, "2022-01-03T09:30",
   [⟨"v-abcdef-2022-01-02T10:00", "id-2", "2022-01-02T10:00:00Z"⟩,
    ⟨"v-abcdef-2022-01-01T10:00", "id-1", "2022-01-01T10:00:00Z"⟩]⟩

def c2m1 : Backup := ⟨"vol1-abcdef-2022-01-01T10:00", "id-m1", "2022-01-01T10:00:00Z"⟩
def c2m2 : Backup := ⟨"vol1-abcdef-2022-01-02T10:00", "id-m2", "2022-01-02T10:00:00Z"⟩
def c2m3 : Backup := ⟨"vol1-abcdef-2022-01-03T10:00", "id-m3", "2022-01-03T10:00:00Z"⟩
def c2m4 : Backup := ⟨"vol1-abcdef-2022-01-04T10:00", "id-m4", "2022-01-04T10:00:00Z"⟩
def c2m5 : Backup := ⟨"vol1-abcdef-2022-01-05T10:00", "id-m5", "2022-01-05T10:00:00Z"⟩
def c2m6 : Backup := ⟨"vol1-abcdef-2022-01-06T10:00", "id-m6", "2022-01-06T10:00:00Z"⟩
def c2new : Backup := ⟨"vol1-abcdef-2022-01-08T09:30", "id-new", "2022-01-08T09:30:00Z"⟩
def c2n1 : Backup := ⟨"manual-backup-1", "id-n1", "2022-01-09T00:00:00Z"⟩
def c2n2 : Backup := ⟨"snap-of-vol1", "id-n2", "2022-01-09T01:00:00Z"⟩

/-- Fixture for C2: retention count 3; after the new backup is created
the listing holds 7 backups matching the generation pattern (the new one
plus six older ones) and 2 manually-named ones, in scrambled order. -/
def c2Input : RotInput :=
  ⟨"abcdefgh1234", 3,
   [c2m1, c2m2, c2m3, c2m4, c2m5, c2m6, c2n1, c2n2],
   [⟨"vol1"⟩], true, "2022-01-08T09:30",
   [c2m3, c2n1, c2m1, c2new, c2m5, c2m2, c2n2, c2m6, c2m4]⟩

def c3a : Backup := ⟨"w-volidX-2022-02-01T08:00", "id-a", "2022-02-01T08:00:00Z"⟩
def c3b : Backup := ⟨"w-volidX-2022-02-02T08:00", "id-b", "2022-02-02T08:00:00Z"⟩
def c3c : Backup := ⟨"w-volidX-2022-02-03T08:00", "id-c", "2022-02-03T08:00:00Z"⟩

/-- Fixture for C3: retention count 1 and three matching backups, so the
excess tail holds two backups of different ages. -/
def c3Input : RotInput :=
  ⟨"volidXYZ", 1, [], [⟨"w"⟩], true, "2022-02-03T08:00", [c3a, c3b, c3c]⟩

def c4new : Backup := ⟨"vol1-abcdef-2022-01-05T10:00", "id-new4", "2022-01-05T10:00:00Z"⟩
def c4rogue : Backup := ⟨"vol1-zzzzzz-2022-01-01T00:00", "id-rogue", "2022-01-01T00:00:00Z"⟩

/-- Fixture for C4: the volume id is abcdefgh, so the rotation generates
names with hash slot abcdef; the listing also holds a manually created
backup whose middle six characters are zzzzzz. -/
def c4Input : RotInput :=
  ⟨"abcdefgh", 1, [], [⟨"vol1"⟩], true, "2022-01-05T10:00", [c4new, c4rogue]⟩

/-- Fixture for the C5 witness: a run whose backup creation failed. -/
def c5Input : RotInput :=
  ⟨"abcdefgh", 2, [], [⟨"v"⟩], false, "2022-01-01T00:00", []⟩

def c9Input0 : RotInput := ⟨"vid", 0, [], [], false, "", []⟩
def c9Input31 : RotInput := ⟨"vid", 31, [], [], false, "", []⟩

/-- The job-queue-full message of the GCPCVS.py retry loop. -/
def jobFullMsg : String := "Error creating volume - Cannot spawn additional jobs"

/-! ## Claim theorems -/

/-- C7: for every service level in the four-entry table, applying
API2UI, then UI2API, then API2UI again equals a single API2UI; and every
input outside a table translates to `none` (no translation) rather than
to a table value. -/
theorem c7_service_level_roundtrip :
    (∀ x ∈ apiServiceLevels,
      ((translateServiceLevelAPI2UI x).bind translateServiceLevelUI2API).bind
        translateServiceLevelAPI2UI = translateServiceLevelAPI2UI x) ∧
    (∀ s, s ∉ apiServiceLevels → translateServiceLevelAPI2UI s = none) ∧
    (∀ s, s ∉ uiServiceLevels → translateServiceLevelUI2API s = none) := by
  refine ⟨?_, ?_, ?_⟩
  · intro x hx
    simp only [apiServiceLevels, List.mem_cons, List.not_mem_nil, or_false] at hx
    rcases hx with rfl | rfl | rfl | rfl <;> rfl
  · intro s hs
    simp only [apiServiceLevels, List.mem_cons, List.not_mem_nil, or_false,
      not_or] at hs
    obtain ⟨h1, h2, h3, h4⟩ := hs
    simp [translateServiceLevelAPI2UI, h1, h2, h3, h4]
  · intro s hs
    simp only [uiServiceLevels, List.mem_cons, List.not_mem_nil, or_false,
      not_or] at hs
    obtain ⟨h1, h2, h3, h4⟩ := hs
    simp [translateServiceLevelUI2API, h1, h2, h3, h4]

/-- Witness for C7 at the concrete inputs basic (in the table) and
premium / basic (outside the API resp. UI tables). -/
theorem c7_service_level_roundtrip_witness :
    (((translateServiceLevelAPI2UI "basic").bind translateServiceLevelUI2API).bind
      translateServiceLevelAPI2UI = translateServiceLevelAPI2UI "basic") ∧
    translateServiceLevelAPI2UI "premium" = none ∧
    translateServiceLevelUI2API "basic" = none :=
  ⟨c7_service_level_roundtrip.1 "basic" (by decide),
   c7_service_level_roundtrip.2.1 "premium" (by decide),
   c7_service_level_roundtrip.2.2 "basic" (by decide)⟩

/-- C9: a retention count outside 1..30 makes `rotateBackup` of either
client fail before any outgoing call: the bound check runs first, the
function returns `False`, and the trace is empty (no backup listing,
volume lookup, creation or deletion request). -/
theorem c9_count_validation_first :
    ∀ inp : RotInput, inp.count < 1 ∨ 30 < inp.count →
      rotateBackup inp = (RotOutcome.retFalse, []) ∧
      rotateBackupGCPCVS inp = (RotOutcome.retFalse, []) := by
  intro inp h
  obtain ⟨vid, cnt, l1, vols, cok, now, l2⟩ := inp
  dsimp only at h
  have hc : ¬ (1 ≤ cnt ∧ cnt ≤ 30) := by omega
  refine ⟨?_, ?_⟩ <;>
    simp [rotateBackup, rotateBackupGCPCVS, rotateBackupWith, hc]

/-- Witness for C9 at the retention counts 0 and 31. -/
theorem c9_count_validation_first_witness :
    rotateBackup c9Input0 = (RotOutcome.retFalse, []) ∧
    rotateBackupGCPCVS c9Input31 = (RotOutcome.retFalse, []) :=
  ⟨(c9_count_validation_first c9Input0 (by decide)).1,
   (c9_count_validation_first c9Input31 (by decide)).2⟩

/-- C1: the pruning phase of `rotateBackup` calls the attribute
`deleteBackupbyBackupID` while both classes define only
`deleteBackupByBackupID`, so every rotation whose matching backups
exceed the count after creation raises `AttributeError` at the first
deletion, prunes nothing, and issues no delete request. -/
theorem c1_pruning_attribute_missing :
    (gcpcvsClassMethods.contains rotateDeleteAttrName = false ∧
     theGCPCVSClassMethods.contains rotateDeleteAttrName = false ∧
     gcpcvsClassMethods.contains "deleteBackupByBackupID" = true ∧
     theGCPCVSClassMethods.contains "deleteBackupByBackupID" = true) ∧
    ∀ (vid : String) (cnt : Int) (l1 : List Backup) (vol : Volume)
      (vs : List Volume) (now : String) (l2 sorted : List Backup),
      1 ≤ cnt → cnt ≤ 30 → l1.length ≠ 32 →
      sortBackupsDesc (l2.filter
        (fun b => matchesRotationPattern vol.name b.name)) = some sorted →
      cnt.toNat < sorted.length →
      rotateBackup ⟨vid, cnt, l1, vol :: vs, true, now, l2⟩ =
        (RotOutcome.attributeError rotateDeleteAttrName,
         [RotEvent.listBackupsCall, RotEvent.getVolumeCall,
          RotEvent.createBackupCall (rotationBackupName vol.name vid now),
          RotEvent.listBackupsCall]) ∧
      rotateBackupGCPCVS ⟨vid, cnt, l1, vol :: vs, true, now, l2⟩ =
        (RotOutcome.attributeError rotateDeleteAttrName,
         [RotEvent.listBackupsCall, RotEvent.getVolumeCall,
          RotEvent.createBackupCall (rotationBackupName vol.name vid now),
          RotEvent.listBackupsCall]) := by
  constructor
  · exact ⟨by decide, by decide, by decide, by decide⟩
  · intro vid cnt l1 vol vs now l2 sorted h1 h2 h3 h6 hlt
    have hdrop : sorted.drop cnt.toNat ≠ [] := by
      intro hnil
      have hlen := List.length_drop cnt.toNat sorted
      rw [hnil] at hlen
      simp at hlen
      omega
    obtain ⟨b, rest, hbr⟩ := List.exists_cons_of_ne_nil hdrop
    have hmiss : gcpcvsClassMethods.contains rotateDeleteAttrName = false := by decide
    have hmiss2 : theGCPCVSClassMethods.contains rotateDeleteAttrName = false := by
      decide
    constructor
    · simp only [rotateBackup]
      rw [rotateBackupWith_prune_eq _ _ vid cnt l1 vol vs now l2 sorted h1 h2 h3 h6,
        hbr, pruneLoop_missing hmiss]
    · simp only [rotateBackupGCPCVS]
      rw [rotateBackupWith_prune_eq _ _ vid cnt l1 vol vs now l2 sorted h1 h2 h3 h6,
        hbr, pruneLoop_missing hmiss2]

/-- Witness for C1 at a concrete two-backup fixture with count 1. -/
theorem c1_pruning_attribute_missing_witness :
    rotateBackup c1Input =
      (RotOutcome.attributeError rotateDeleteAttrName,
       [RotEvent.listBackupsCall, RotEvent.getVolumeCall,
        RotEvent.createBackupCall (rotationBackupName "v" "abcdefgh" "2022-01-03T09:30"),
        RotEvent.listBackupsCall]) :=
  (c1_pruning_attribute_missing.2 "abcdefgh" 1 [] ⟨"v"⟩ [] "2022-01-03T09:30"
    [⟨"v-abcdef-2022-01-02T10:00", "id-2", "2022-01-02T10:00:00Z"⟩,
     ⟨"v-abcdef-2022-01-01T10:00", "id-1", "2022-01-01T10:00:00Z"⟩]
    [⟨"v-abcdef-2022-01-02T10:00", "id-2", "2022-01-02T10:00:00Z"⟩,
     ⟨"v-abcdef-2022-01-01T10:00", "id-1", "2022-01-01T10:00:00Z"⟩]
    (by decide) (by decide) (by decide) (by decide) (by decide)).1

/-- C5: creation strictly precedes pruning.  For every run of the
rotation — either class, and whichever attribute the delete call
resolves to — no delete call appears in the trace before the
backup-creation call, and a run whose backup creation failed (the
`createBackup` result is `False`) aborts with no delete call at all. -/
theorem c5_create_precedes_delete :
    ∀ (methods : List String) (attr : String) (inp : RotInput),
      noDeleteBeforeCreate (rotateBackupWith methods attr inp).2 = true ∧
      (inp.createOk = false →
        (rotateBackupWith methods attr inp).2.filter isDeleteEvent = []) := by
  intro methods attr inp
  obtain ⟨vid, cnt, l1, vols, cok, now, l2⟩ := inp
  simp only [rotateBackupWith]
  by_cases hc : ¬ (1 ≤ cnt ∧ cnt ≤ 30)
  · rw [if_pos hc]
    exact ⟨by simp [noDeleteBeforeCreate], fun _ => by simp⟩
  rw [if_neg hc]
  by_cases h32 : l1.length = 32
  · rw [if_pos h32]
    exact ⟨by simp [noDeleteBeforeCreate], fun _ => by simp [isDeleteEvent]⟩
  rw [if_neg h32]
  cases vols with
  | nil =>
    exact ⟨by simp [noDeleteBeforeCreate], fun _ => by simp [isDeleteEvent]⟩
  | cons vol vs =>
    cases cok with
    | false =>
      refine ⟨?_, fun _ => ?_⟩ <;> simp [noDeleteBeforeCreate, isDeleteEvent]
    | true =>
      refine ⟨?_, fun hcok => absurd hcok (by simp)⟩
      cases hs : sortBackupsDesc (l2.filter
          (fun b => matchesRotationPattern vol.name b.name)) with
      | none => simp [hs, noDeleteBeforeCreate]
      | some sorted =>
        obtain ⟨tail, ht, _⟩ := @pruneLoop_events methods attr
          (sorted.drop cnt.toNat)
          [RotEvent.listBackupsCall, RotEvent.getVolumeCall,
           RotEvent.createBackupCall (rotationBackupName vol.name vid now),
           RotEvent.listBackupsCall]
        simp [hs, ht, noDeleteBeforeCreate]

/-- Witness for C5 at a concrete failed-creation fixture. -/
theorem c5_create_precedes_delete_witness :
    noDeleteBeforeCreate
      (rotateBackupWith gcpcvsClassMethods rotateDeleteAttrName c5Input).2 = true ∧
    (rotateBackupWith gcpcvsClassMethods rotateDeleteAttrName c5Input).2.filter
      isDeleteEvent = [] :=
  ⟨(c5_create_precedes_delete gcpcvsClassMethods rotateDeleteAttrName c5Input).1,
   (c5_create_precedes_delete gcpcvsClassMethods rotateDeleteAttrName c5Input).2
     (by decide)⟩

/-- C6: on a 500 response the executor gates on the message field.  A
message without the job-queue-full phrase fails permanently after
exactly one attempt (no retry, no sleep); a message carrying the phrase
is retried after a backoff that fits the deadline, and the success of
the retried attempt is returned.  The same split holds in the
count-based retry loop of `GCPCVS.createVolume` with its
`startswith` test. -/
theorem c6_500_message_gate :
    (∀ (ts t0 : Nat) (r : ApiResponse) (script : List ApiResponse)
      (sleeps : List Nat),
      0 < ts → r.status = 500 →
      containsSubstr (messageField r) "Cannot spawn additional jobs" = false →
      do_api_post ts t0 (r :: script) sleeps = ExecResult.raised r 1) ∧
    (∀ (ts t0 d : Nat) (r r2 : ApiResponse),
      r.status = 500 →
      containsSubstr (messageField r) "Cannot spawn additional jobs" = true →
      d < ts → r2.status = 200 →
      do_api_post ts t0 [r, r2] [d] = ExecResult.ok r2 2) ∧
    (∀ (n : Nat) (r : ApiResponse) (script : List ApiResponse),
      r.status = 500 → r.hasMessage = true →
      "Error creating volume - Cannot spawn additional jobs".data.isPrefixOf
        r.message.data = false →
      createVolumeRetryLoop (n + 1) (r :: script) 0 = ExecResult.raised r 1) ∧
    (∀ (n : Nat) (r r2 : ApiResponse),
      r.status = 500 → r.hasMessage = true →
      "Error creating volume - Cannot spawn additional jobs".data.isPrefixOf
        r.message.data = true →
      r2.status = 200 →
      createVolumeRetryLoop (n + 1 + 1) [r, r2] 0 = ExecResult.ok r2 2) := by
  refine ⟨?_, ?_, ?_, ?_⟩
  · intro ts t0 r script sleeps hts h500 hmsg
    have hne : ts ≠ 0 := by omega
    simp [do_api_post, apiPostLoop, hne, h500, hmsg, finishRequest]
  · intro ts t0 d r r2 h500 hmsg hd h200
    have hne : ts ≠ 0 := by omega
    have htime : ¬ (t0 + ts ≤ t0 + d) := by omega
    simp [do_api_post, apiPostLoop, hne, h500, hmsg, h200, htime, finishRequest]
  · intro n r script h500 hmsg hpre
    simp [createVolumeRetryLoop, h500, hmsg, hpre, finishRequest]
  · intro n r r2 h500 hmsg hpre h200
    simp [createVolumeRetryLoop, h500, hmsg, hpre, h200, finishRequest]

/-- Witness for C6 at concrete scripted responses. -/
theorem c6_500_message_gate_witness :
    do_api_post 600 0 [⟨500, true, "some other error"⟩] [60] =
      ExecResult.raised ⟨500, true, "some other error"⟩ 1 ∧
    do_api_post 600 0 [⟨500, true, jobFullMsg⟩, ⟨200, false, ""⟩] [60] =
      ExecResult.ok ⟨200, false, ""⟩ 2 ∧
    createVolumeRetryLoop 10 [⟨500, true, "some other error"⟩] 0 =
      ExecResult.raised ⟨500, true, "some other error"⟩ 1 ∧
    createVolumeRetryLoop 10 [⟨500, true, jobFullMsg⟩, ⟨200, false, ""⟩] 0 =
      ExecResult.ok ⟨200, false, ""⟩ 2 :=
  ⟨c6_500_message_gate.1 600 0 ⟨500, true, "some other error"⟩ [] [60]
     (by decide) rfl (by decide),
   c6_500_message_gate.2.1 600 0 60 ⟨500, true, jobFullMsg⟩ ⟨200, false, ""⟩
     rfl (by decide) (by decide) rfl,
   c6_500_message_gate.2.2.1 9 ⟨500, true, "some other error"⟩ []
     rfl rfl (by decide),
   c6_500_message_gate.2.2.2 8 ⟨500, true, jobFullMsg⟩ ⟨200, false, ""⟩
     rfl rfl (by decide) rfl⟩

/-- C10 counterexample: with a zero retry window a scripted 201 response
(a status outside 200/202, and one the backup API does emit) is returned
as a success after one attempt by both executors instead of failing
permanently. -/
theorem c10_counterexample :
    do_api_post 0 0 [⟨201, false, ""⟩] [] = ExecResult.ok ⟨201, false, ""⟩ 1 ∧
    do_api_delete 0 0 [⟨201, false, ""⟩] [] = ExecResult.ok ⟨201, false, ""⟩ 1 ∧
    ¬ (201 = 200 ∨ 201 = 202) := by decide

/-- C10 amended: a zero retry window means exactly one attempt, with no
sleep, no retry and no message inspection; statuses 400 and above raise
immediately (permanent failure), while statuses below 400 outside
200/202 — such as 201 — are only logged and the response is returned
without failure. -/
theorem c10_zero_window_one_attempt :
    ∀ (t0 : Nat) (r : ApiResponse) (script : List ApiResponse)
      (sleeps : List Nat),
      do_api_post 0 t0 (r :: script) sleeps =
        (if 400 ≤ r.status then ExecResult.raised r 1 else ExecResult.ok r 1) ∧
      do_api_delete 0 t0 (r :: script) sleeps =
        (if 400 ≤ r.status then ExecResult.raised r 1 else ExecResult.ok r 1) := by
  intro t0 r script sleeps
  constructor <;>
    simp [do_api_post, do_api_delete, apiPostLoop, apiDeleteLoop, finishRequest]

/-- C8 counterexample: the backup-creation wait, scripted to observe the
states error, error, available, polls straight through both error states
and returns success after the third poll — it never raises; with only
error states scripted it is still polling. -/
theorem c8_counterexample :
    createBackupWaitLoop ["error", "error", "available"] 0 = some 3 ∧
    createBackupWaitLoop ["error"] 0 = none := by decide

/-- C8 amended: only the replication-break wait treats the error state
as a raising terminal, surfacing the service-reported
`lifeCycleStateDetails` (Python `RuntimeError`); the backup-creation
wait recognises no error terminal and keeps polling past an error
state. -/
theorem c8_error_terminal_split :
    (∀ (det : String) (rest : List (String × String)) (polls : Nat),
      breakReplicationWaitLoop (("error", det) :: rest) polls =
        BreakWaitResult.runtimeError det (polls + 1)) ∧
    (∀ (rest : List String) (polls : Nat),
      createBackupWaitLoop ("error" :: rest) polls =
        createBackupWaitLoop rest (polls + 1)) := by
  constructor
  · intro det rest polls
    simp [breakReplicationWaitLoop]
  · intro rest polls
    simp [createBackupWaitLoop]

/-- C2 counterexample: on the exact fixture of the claim — retention
count 3, post-creation listing of 7 pattern-matching plus 2 non-matching
backups — `rotateBackup` does not delete 4 backups and returns no pruned
count: it raises `AttributeError` at the first deletion and its trace
carries no delete call at all. -/
theorem c2_counterexample :
    (rotateBackup c2Input).1 =
      RotOutcome.attributeError "deleteBackupbyBackupID" ∧
    (rotateBackup c2Input).2.filter isDeleteEvent = [] := by decide

/-- C2 amended: on that fixture the rotation computes exactly the 4
oldest matching backups as prune candidates and excludes both
non-matching backups, but as written raises `AttributeError` at the
first deletion and deletes nothing; with the delete call dispatched to
the method the class defines it would delete exactly those 4 (newest
excess first) and return the bare boolean `True` — not a pruned count
with the new backup's identifier. -/
theorem c2_fixture_rotation :
    pruneCandidates c2Input = [c2m4, c2m3, c2m2, c2m1] ∧
    c2n1 ∉ pruneCandidates c2Input ∧
    c2n2 ∉ pruneCandidates c2Input ∧
    rotateBackupIntendedDispatch c2Input =
      (RotOutcome.retTrue,
       [RotEvent.listBackupsCall, RotEvent.getVolumeCall,
        RotEvent.createBackupCall "vol1-abcdef-2022-01-08T09:30",
        RotEvent.listBackupsCall,
        RotEvent.deleteCall "id-m4", RotEvent.deleteCall "id-m3",
        RotEvent.deleteCall "id-m2", RotEvent.deleteCall "id-m1"]) ∧
    (rotateBackup c2Input).1 = RotOutcome.attributeError rotateDeleteAttrName := by
  decide

/-- C3 counterexample: with two excess backups the rotation as written
issues no delete request at all (the misspelled attribute raises first),
and even under the intended dispatch the first delete goes to the newer
excess backup (id-b, created 2022-02-02) while the oldest (id-a, created
2022-02-01) is deleted last — not oldest-first. -/
theorem c3_counterexample :
    (pruneCandidates c3Input).length = 2 ∧
    (rotateBackup c3Input).2.filter isDeleteEvent = [] ∧
    (rotateBackupIntendedDispatch c3Input).2.filter isDeleteEvent =
      [RotEvent.deleteCall "id-b", RotEvent.deleteCall "id-a"] ∧
    backupSortKey c3b = some 20220202080000 ∧
    backupSortKey c3a = some 20220201080000 := by decide

/-- C3 amended: every rotation that reaches pruning walks
`sortedbackups[count:]`, the tail of the descending-by-created sort, so
deletion is attempted newest-excess-first (nonincreasing parsed creation
keys), deterministically for a stable listing; under the intended
dispatch the delete calls are issued in exactly that order, and as
written the misspelled attribute stops the first attempt with
`AttributeError` before any delete request. -/
theorem c3_prune_order :
    ∀ (vid : String) (cnt : Int) (l1 : List Backup) (vol : Volume)
      (vs : List Volume) (now : String) (l2 sorted : List Backup),
      1 ≤ cnt → cnt ≤ 30 → l1.length ≠ 32 →
      sortBackupsDesc (l2.filter
        (fun b => matchesRotationPattern vol.name b.name)) = some sorted →
      ((rotateBackupIntendedDispatch ⟨vid, cnt, l1, vol :: vs, true, now, l2⟩).2.filter
          isDeleteEvent =
        (pruneCandidates ⟨vid, cnt, l1, vol :: vs, true, now, l2⟩).map
          (fun b => RotEvent.deleteCall b.backupId)) ∧
      pruneCandidates ⟨vid, cnt, l1, vol :: vs, true, now, l2⟩ =
        sorted.drop cnt.toNat ∧
      (pruneCandidates ⟨vid, cnt, l1, vol :: vs, true, now, l2⟩).Pairwise
        (fun x y => (backupSortKey y).getD 0 ≤ (backupSortKey x).getD 0) ∧
      (rotateBackup ⟨vid, cnt, l1, vol :: vs, true, now, l2⟩).2.filter
        isDeleteEvent = [] := by
  intro vid cnt l1 vol vs now l2 sorted h1 h2 h3 h6
  have hpc : pruneCandidates ⟨vid, cnt, l1, vol :: vs, true, now, l2⟩ =
      sorted.drop cnt.toNat :=
    pruneCandidates_eq vid cnt l1 vol vs true now l2 sorted h6
  have hdef : gcpcvsClassMethods.contains "deleteBackupByBackupID" = true := by
    decide
  have hmiss : gcpcvsClassMethods.contains rotateDeleteAttrName = false := by
    decide
  refine ⟨?_, hpc, ?_, ?_⟩
  · simp only [rotateBackupIntendedDispatch]
    rw [rotateBackupWith_prune_eq _ _ vid cnt l1 vol vs now l2 sorted h1 h2 h3 h6,
      pruneLoop_defined hdef, hpc]
    simp only [isDeleteEvent, List.filter_append, List.filter_cons, List.filter_nil]
    simp [isDeleteEvent, filter_isDelete_deleteCalls]
    intro a ha
    rcases List.mem_map.mp (List.mem_of_mem_drop ha) with ⟨b, _, rfl⟩
    rfl
  · rw [hpc]
    exact (sortBackupsDesc_pairwise h6).sublist (List.drop_sublist _ _)
  · simp only [rotateBackup]
    rw [rotateBackupWith_prune_eq _ _ vid cnt l1 vol vs now l2 sorted h1 h2 h3 h6]
    cases hdrop : sorted.drop cnt.toNat with
    | nil => simp [pruneLoop, isDeleteEvent]
    | cons b rest =>
      rw [pruneLoop_missing hmiss]
      simp [isDeleteEvent]

/-- Witness for C3 at the concrete three-backup fixture. -/
theorem c3_prune_order_witness :
    pruneCandidates c3Input = List.drop (Int.toNat 1) [c3c, c3b, c3a] :=
  (c3_prune_order "volidXYZ" 1 [] ⟨"w"⟩ [] "2022-02-03T08:00" [c3a, c3b, c3c]
    [c3c, c3b, c3a] (by decide) (by decide) (by decide) (by decide)).2.1

/-- C4 counterexample: the backup vol1-zzzzzz-2022-01-01T00:00 is not a
name the rotation generates for this volume (its hash slot zzzzzz
differs from the volume id prefix abcdef), yet the rotation selects it
for pruning — and deletes it under the intended dispatch. -/
theorem c4_counterexample :
    c4rogue ∈ pruneCandidates c4Input ∧
    (rotateBackupIntendedDispatch c4Input).2.filter isDeleteEvent =
      [RotEvent.deleteCall "id-rogue"] ∧
    claimedGeneratedName "vol1" (String.mk (c4Input.volumeID.data.take 6))
      c4rogue.name = false := by decide

/-- C4 amended: every backup the pruning phase selects matches the
filter the source really applies — a start-anchored match of the volume
name, a dash, any six characters, a dash and a minute-timestamp digit
pattern, with arbitrary trailing characters — and a backup failing that
filter is never selected; but the filter does not pin the six characters
to the volume id prefix, so it is strictly weaker than the
self-generated-name pattern of the claim. -/
theorem c4_prune_respects_filter :
    ∀ (vid : String) (cnt : Int) (l1 : List Backup) (vol : Volume)
      (vs : List Volume) (cok : Bool) (now : String) (l2 : List Backup),
      (∀ b ∈ pruneCandidates ⟨vid, cnt, l1, vol :: vs, cok, now, l2⟩,
        matchesRotationPattern vol.name b.name = true) ∧
      (∀ b ∈ l2, matchesRotationPattern vol.name b.name = false →
        b ∉ pruneCandidates ⟨vid, cnt, l1, vol :: vs, cok, now, l2⟩) := by
  intro vid cnt l1 vol vs cok now l2
  have hmem : ∀ b ∈ pruneCandidates ⟨vid, cnt, l1, vol :: vs, cok, now, l2⟩,
      matchesRotationPattern vol.name b.name = true := by
    intro b hb
    simp only [pruneCandidates] at hb
    cases hs : sortBackupsDesc (l2.filter
        (fun b => matchesRotationPattern vol.name b.name)) with
    | none => rw [hs] at hb; simp at hb
    | some sorted =>
      rw [hs] at hb
      have hb2 : b ∈ sorted := List.mem_of_mem_drop hb
      have hb3 := sortBackupsDesc_mem hs b hb2
      exact (List.mem_filter.mp hb3).2
  refine ⟨hmem, ?_⟩
  intro b _ hnot hin
  rw [hmem b hin] at hnot
  exact Bool.noConfusion hnot

/-- Witness for C4: the regex filter accepts the rogue backup the
rotation selects on the concrete fixture. -/
theorem c4_prune_respects_filter_witness :
    matchesRotationPattern "vol1" c4rogue.name = true :=
  (c4_prune_respects_filter "abcdefgh" 1 [] ⟨"vol1"⟩ [] true "2022-01-05T10:00"
    [c4new, c4rogue]).1 c4rogue (by decide)
